import Mathlib

/-
Verification development for the snowdepth2SWE repository.

The Python sources are shallowly embedded here:
  * scripts/density_models.py : get_doy, extract_byclass, sturm_swecalc,
    bulkdensity_swecalc
  * scripts/calc_swe.py       : calc_dowy, calc_swe (the Hill blended model)
  * scripts/run_sd2swe.py     : swe_models, write_out_rio

Floating point values are modelled by exact rationals (for the fixed tables)
and by the real numbers (for the model formulas); grids are modelled cell-wise
by a single real value, which is faithful because every model formula is a
pure elementwise computation.
-/

/-! ## Python primitives used by the date parsing code -/

/-- Numeric value of a decimal digit character. -/
def digitToNat (c : Char) : ℕ := c.toNat - 48

/-- Value of a non-empty all-digit character list, most significant first. -/
def digitsToNat (l : List Char) : ℕ :=
  l.foldl (fun a c => 10 * a + digitToNat c) 0

/-- Value of a digit run, or `none` when empty or containing a non-digit.
Used as the unsigned core of Python's `int()`. -/
def digitsVal (l : List Char) : Option ℕ :=
  if l ≠ [] ∧ l.all Char.isDigit then some (digitsToNat l) else none

/-- Models Python's `int(s)` on the inputs the repository feeds it:
an optional single sign followed by decimal digits.  (The whitespace and
underscore tolerance of CPython's `int` is irrelevant to every claim and is
not modelled.) -/
def pyInt (l : List Char) : Option ℤ :=
  match l with
  | [] => none
  | c :: rest =>
    if c = '-' then (digitsVal rest).map (fun n => -(n : ℤ))
    else if c = '+' then (digitsVal rest).map (fun n => (n : ℤ))
    else (digitsVal l).map (fun n => (n : ℤ))

/-- Python's slice `s[a:b]` for nonnegative bounds, on the char list. -/
def pySlice (l : List Char) (a b : ℕ) : List Char :=
  (l.take b).drop a

/-- Python's slice `s[-2:]`: the last two characters (the whole string when it
is shorter than two characters). -/
def pyLastTwo (l : List Char) : List Char :=
  l.drop (l.length - 2)

/-! ## Gregorian calendar, as implemented by Python's `datetime.date` -/

/-- Gregorian leap-year test used by `datetime.date`. -/
def isLeapYear (y : ℕ) : Bool :=
  y % 4 == 0 && (y % 100 != 0 || y % 400 == 0)

/-- Length of month `m` of year `y` (`datetime.date` validity bound). -/
def daysInMonth (y m : ℕ) : ℕ :=
  if m = 2 then (if isLeapYear y then 29 else 28)
  else if m = 4 ∨ m = 6 ∨ m = 9 ∨ m = 11 then 30
  else 31

/-- Days in year `y` strictly before month `m`. -/
def daysBeforeMonth (y m : ℕ) : ℕ :=
  (List.range (m - 1)).foldl (fun a i => a + daysInMonth y (i + 1)) 0

/-- Proleptic Gregorian ordinal of a date, as `datetime.date.toordinal`:
day 1 is January 1 of year 1.  Differences of ordinals are exactly
`(d2 - d1).days` in Python. -/
def toordinal (y m d : ℕ) : ℕ :=
  365 * (y - 1) + (y - 1) / 4 - (y - 1) / 100 + (y - 1) / 400 +
    daysBeforeMonth y m + d

/-- Models `Y=int(f[:4]); M=int(f[4:6]); D=int(f[-2:]); datetime.date(Y,M,D)`,
the parsing prologue shared by `get_doy` and `calc_dowy`: the result is the
validated `(Y, M, D)` triple, or `none` when any `int()` call or the
`datetime.date` constructor raises. -/
def parse_date (f : String) : Option (ℕ × ℕ × ℕ) :=
  let l := f.toList
  match pyInt (pySlice l 0 4), pyInt (pySlice l 4 6), pyInt (pyLastTwo l) with
  | some Y, some M, some D =>
    if 1 ≤ Y ∧ Y ≤ 9999 ∧ 1 ≤ M ∧ M ≤ 12 ∧ 1 ≤ D ∧
        D ≤ (daysInMonth Y.toNat M.toNat : ℤ) then
      some (Y.toNat, M.toNat, D.toNat)
    else none
  | _, _, _ => none

/-! ## Calendar functions of the repository

`get_doy` (scripts/density_models.py, lines 12-38) and `calc_dowy`
(scripts/calc_swe.py, lines 67-90).  Both guard their leap-day increment with
the Python expression

  `(thisDate > date(Y,2,28)) & (thisDate <= end) & (Y%4) == 0`

which, by Python operator precedence (`&` binds tighter than `==`), is
`((A & B) & (Y%4)) == 0` on the bit values of the two comparisons — not the
conjunction `A and B and Y%4==0`.  The embedding reproduces that parse with
`Int.land`. -/

/-- Day of year, from scripts/density_models.py `get_doy`.  Dates compare by
their ordinals, exactly as `datetime.date` comparisons do. -/
def get_doy (f : String) (handleleaps : Bool) : Except String ℤ :=
  match parse_date f with
  | none => Except.error ("DateFormatError")
  | some (Y, M, D) =>
    let diff : ℤ := (toordinal Y 12 31 : ℤ) - (toordinal Y M D : ℤ)
    let DOY : ℤ := 365 - diff
    let A : ℤ := if toordinal Y M D > toordinal Y 2 28 then 1 else 0
    let B : ℤ := if toordinal Y M D ≤ toordinal Y 12 31 then 1 else 0
    if handleleaps ∧ Int.land (Int.land A B) ((Y : ℤ) % 4) = 0 then
      Except.ok (DOY + 1)
    else Except.ok DOY

/-- Day of water year, from scripts/calc_swe.py `calc_dowy`. -/
def calc_dowy (f : String) : Except String ℤ :=
  match parse_date f with
  | none => Except.error ("DateFormatError")
  | some (Y, M, D) =>
    let diff0 : ℤ := (toordinal Y 9 30 : ℤ) - (toordinal Y M D : ℤ)
    let diff : ℤ := if diff0 < 0 then diff0 + 365 else diff0
    let DOWY : ℤ := 365 - diff
    let A : ℤ := if toordinal Y M D > toordinal Y 2 28 then 1 else 0
    let B : ℤ := if toordinal Y M D ≤ toordinal Y 9 30 then 1 else 0
    if Int.land (Int.land A B) ((Y : ℤ) % 4) = 0 then
      Except.ok (DOWY + 1)
    else Except.ok DOWY

/-! ## Snow class table (scripts/density_models.py, `extract_byclass`) -/

/-- The five snow climate class names, Table 4 of Sturm et al. 2010. -/
def snow_classes : List String :=
  [("Alpine"), ("Maritime"), ("Prairie"), ("Tundra"), ("Taiga")]

/-- Maximum seasonal bulk densities, by class index. -/
def rho_maxes : List ℚ := [0.5975, 0.5979, 0.5940, 0.3630, 0.2170]

/-- Initial seasonal bulk densities, by class index. -/
def rho_inits : List ℚ := [0.2237, 0.2578, 0.2332, 0.2425, 0.2170]

/-- Depth densification parameters, by class index. -/
def k1s : List ℚ := [0.0012, 0.0010, 0.0016, 0.0029, 0.0000]

/-- Day-of-year densification parameters, by class index. -/
def k2s : List ℚ := [0.0038, 0.0038, 0.0031, 0.0049, 0.0000]

/-- One step of Python's `str.title()`: an alphabetic character is uppercased
when the previous character was not alphabetic and lowercased otherwise;
other characters pass through and reset the word boundary. -/
def pyTitleAux : Bool → List Char → List Char
  | _, [] => []
  | prevAlpha, c :: rest =>
    let c2 := if c.isAlpha then (if prevAlpha then c.toLower else c.toUpper) else c
    c2 :: pyTitleAux c.isAlpha rest

/-- Python's `str.title()` (ASCII fragment, which covers the class names). -/
def pyTitle (s : String) : String := String.mk (pyTitleAux false s.toList)

/-- The table row at index `idx`:
`(snow_classes[idx], rho_maxes[idx], rho_inits[idx], k1s[idx], k2s[idx])`. -/
def class_row (idx : ℕ) : String × ℚ × ℚ × ℚ × ℚ :=
  (snow_classes.getD idx (""), rho_maxes.getD idx 0, rho_inits.getD idx 0,
    k1s.getD idx 0, k2s.getD idx 0)

/-- scripts/density_models.py `extract_byclass`: exact-case lookup first,
then the title-cased form, else the `sys.exit` failure (modelled as a typed
error). -/
def extract_byclass (c : String) : Except String (String × ℚ × ℚ × ℚ × ℚ) :=
  if c ∈ snow_classes then
    Except.ok (class_row (snow_classes.indexOf c))
  else if pyTitle c ∈ snow_classes then
    Except.ok (class_row (snow_classes.indexOf (pyTitle c)))
  else
    Except.error ("Neither " ++ c ++ ", nor " ++ pyTitle c ++ " in snow_classes")

/-! ## Density models (scripts/density_models.py) -/

/-- The Sturm bulk density expression of scripts/density_models.py line 82:
`(rho_max - rho_init) * (1 - exp(-k1 * h_cm - k2 * DOY)) + rho_init`. -/
noncomputable def rho_b_model (rho_max rho_init k1 k2 h_cm DOY : ℝ) : ℝ :=
  (rho_max - rho_init) * (1 - Real.exp (-k1 * h_cm - k2 * DOY)) + rho_init

/-- scripts/density_models.py `sturm_swecalc`: resolve the class parameters,
convert depth with `h_cm = h * 10`, form the bulk density and return
`rho_b * h * 1000` millimetres of SWE.  `DOY` falls back to `get_doy YMD`
when not supplied, as in the source. -/
noncomputable def sturm_swecalc (h : ℝ) (snow_class : String) (DOY : Option ℤ)
    (YMD : String) : Except String ℝ := do
  let doy : ℤ ← match DOY with
    | some d => Except.ok d
    | none => get_doy YMD true
  let p ← extract_byclass snow_class
  let h_cm : ℝ := h * 10
  let rho_b : ℝ := rho_b_model (p.2.1 : ℝ) (p.2.2.1 : ℝ) (p.2.2.2.1 : ℝ)
    (p.2.2.2.2 : ℝ) h_cm (doy : ℝ)
  Except.ok (rho_b * h * 1000)

/-- scripts/density_models.py `bulkdensity_swecalc`: `swe = h * bulk_density`
(metres). -/
noncomputable def bulkdensity_swecalc (h bulk_density : ℝ) : ℝ :=
  h * bulk_density

/-! ## Hill blended model (scripts/calc_swe.py) -/

/-- The early-season weight of scripts/calc_swe.py line 138:
`(-tanh(0.01*(DOWY-180)) + 1) / 2`. -/
noncomputable def earlyWeight (DOWY : ℝ) : ℝ :=
  (-Real.tanh (0.01 * (DOWY - 180)) + 1) / 2

/-- The late-season weight of scripts/calc_swe.py line 139:
`(tanh(0.01*(DOWY-180)) + 1) / 2`. -/
noncomputable def lateWeight (DOWY : ℝ) : ℝ :=
  (Real.tanh (0.01 * (DOWY - 180)) + 1) / 2

/-- The elementwise Hill regression of scripts/calc_swe.py lines 137-139,
with real powers for the fractional exponents. -/
noncomputable def hill_formula (a b : ℝ × ℝ × ℝ × ℝ × ℝ)
    (h pptwt td DOWY : ℝ) : ℝ :=
  a.1 * h ^ a.2.1 * pptwt ^ a.2.2.1 * td ^ a.2.2.2.1 * DOWY ^ a.2.2.2.2 *
      earlyWeight DOWY +
    b.1 * h ^ b.2.1 * pptwt ^ b.2.2.1 * td ^ b.2.2.2.1 * DOWY ^ b.2.2.2.2 *
      lateWeight DOWY

/-- The early-season coefficient tuple `a` of `calc_swe`. -/
def hill_a : ℝ × ℝ × ℝ × ℝ × ℝ := (0.0533, 0.9480, 0.1701, -0.1314, 0.2922)

/-- The late-season coefficient tuple `b` of `calc_swe`. -/
def hill_b : ℝ × ℝ × ℝ × ℝ × ℝ := (0.0481, 1.0395, 0.1699, -0.0461, 0.1804)

/-- scripts/calc_swe.py `calc_swe` on the call path used by the orchestrator:
the depth grid `h` is supplied directly (in mm), the aligned climate values
`td` and `pptwt` stand for the grids `grid_climate` returns, and the date is
the explicit `YMD` string (so `DOWY = calc_dowy YMD`).  Returns
`(swe, h, DOWY)`, mirroring the source's `(swe, h, merge, DOWY)` without the
raw climate stack. -/
noncomputable def calc_swe (h td pptwt : ℝ) (YMD : String) :
    Except String (ℝ × ℝ × ℤ) := do
  let DOWY ← calc_dowy YMD
  Except.ok (hill_formula hill_a hill_b h pptwt td (DOWY : ℝ), h, DOWY)

/-! ## Raster sink and orchestrator (scripts/run_sd2swe.py) -/

/-- The file system visible to `write_out_rio`, as an association list from
path to the written cell value (raster profile metadata plays no role in any
claim and is not modelled). -/
def FileSys : Type := List (String × ℝ)

/-- Whether a path exists (`os.path.exists`). -/
def fileExists (fs : FileSys) (fn : String) : Bool :=
  fs.any (fun p => p.1 == fn)

/-- The value stored at a path, if any. -/
def fsLookup (fs : FileSys) (fn : String) : Option ℝ :=
  (fs.find? (fun p => p.1 == fn)).map (fun p => p.2)

/-- `rasterio.open(fn, 'w')` followed by a write: creates or replaces `fn`. -/
def fsWrite (fs : FileSys) (fn : String) (v : ℝ) : FileSys :=
  (fn, v) :: fs.filter (fun p => p.1 != fn)

/-- scripts/run_sd2swe.py `write_out_rio` (lines 161-227): with `overwrite`
off, the file is written only when the path does not yet exist; with
`overwrite` on it is always written; `dryrun` suppresses the write in either
branch. -/
def write_out_rio (fs : FileSys) (arr : ℝ) (fn : String)
    (overwrite : Bool) (dryrun : Bool) : FileSys :=
  if !overwrite then
    if !fileExists fs fn then
      (if !dryrun then fsWrite fs fn arr else fs)
    else fs
  else
    (if !dryrun then fsWrite fs fn arr else fs)

/-- `os.path.basename` for the slash-separated paths the scripts use. -/
def pyBasename (p : String) : String :=
  (p.splitOn ("/")).getLastD ("")

/-- `os.path.dirname` for the slash-separated relative paths the scripts use. -/
def pyDirname (p : String) : String :=
  String.intercalate ("/") (p.splitOn ("/")).dropLast

/-- Python's `int()` truncation (toward zero) of a rational. -/
def pyTrunc (q : ℚ) : ℤ := if 0 ≤ q then ⌊q⌋ else ⌈q⌉

/-- scripts/run_sd2swe.py `get_snowdepth` on the in-memory path used by
`swe_models`: the optional metres→millimetres conversion. -/
noncomputable def get_snowdepth (arr : ℝ) (mm_convert : Bool) : ℝ :=
  if mm_convert then arr * 1000 else arr

/-- The four output filenames `swe_models` assembles (lines 105, 118, 129 and
142 of scripts/run_sd2swe.py): directory, shortened depth-grid stem, model
tag.  The bulk tag embeds `int(bulk_density*1000)`. -/
def swe_filenames (sd_fn : String) (bulk_density : ℚ) (outdir : Option String) :
    List String :=
  let short_sdfn := pyBasename sd_fn
  let od := outdir.getD (pyDirname sd_fn)
  let stem := od ++ ("/") ++ short_sdfn.dropRight 7
  [stem ++ ("_bulk") ++ toString (pyTrunc (bulk_density * 1000)) ++ ("SWE.tif"),
    stem ++ ("_SturmSWE.tif"),
    stem ++ ("_HillPaperSWE.tif"),
    stem ++ ("_HillGridSWE.tif")]

/-- scripts/run_sd2swe.py `swe_models` (lines 55-158).  The four output
filenames are always assembled; with `dryrun` only they are returned and no
model runs; otherwise the bulk, Sturm and two Hill evaluations run in order
(each optionally persisted through `write_out_rio` when `writeout` is set) and
the function returns the filenames together with the list
`[bulk_swe, sturm_swe, hill_swe]` — the grid-variant Hill result, the paper
variant being computed but not returned, exactly as in the source.  The
aligned climate values for the paper and grid variants enter as the four real
parameters; the final file system is returned alongside. -/
noncomputable def swe_models (fs : FileSys) (h : ℝ) (YMD : String)
    (sd_fn : String) (td_paper pptwt_paper td_grid pptwt_grid : ℝ)
    (bulk_density : ℚ) (snow_class : String) (outdir : Option String)
    (writeout : Bool) (overwrite : Bool) (dryrun : Bool) :
    Except String ((List String × Option (List ℝ)) × FileSys) :=
  let swe_fns := swe_filenames sd_fn bulk_density outdir
  if dryrun then Except.ok ((swe_fns, none), fs)
  else do
    let bulk_swe := bulkdensity_swecalc h (bulk_density : ℝ) * 1000
    let fs1 := if writeout then
      write_out_rio fs bulk_swe (swe_fns.getD 0 ("")) overwrite false else fs
    let sturm_swe ← sturm_swecalc h snow_class none YMD
    let fs2 := if writeout then
      write_out_rio fs1 sturm_swe (swe_fns.getD 1 ("")) overwrite false else fs1
    let sd_converted := get_snowdepth h true
    let hp ← calc_swe sd_converted td_paper pptwt_paper YMD
    let fs3 := if writeout then
      write_out_rio fs2 hp.1 (swe_fns.getD 2 ("")) overwrite false else fs2
    let hg ← calc_swe sd_converted td_grid pptwt_grid YMD
    let fs4 := if writeout then
      write_out_rio fs3 hg.1 (swe_fns.getD 3 ("")) overwrite false else fs3
    Except.ok ((swe_fns, some [bulk_swe, sturm_swe, hg.1]), fs4)

/-! ## Spec-side predicate for the date-format claim -/

/-- Follows the spec's words for the accepted date inputs: a string of exactly
eight digits whose fields `YYYY`, `MM`, `DD` form a valid calendar date. -/
def isEightDigitValidDate (f : String) : Bool :=
  let l := f.toList
  l.length == 8 && l.all Char.isDigit &&
    (let Y := digitsToNat (l.take 4)
     let M := digitsToNat ((l.drop 4).take 2)
     let D := digitsToNat (l.drop 6)
     decide (1 ≤ Y) && decide (Y ≤ 9999) && decide (1 ≤ M) &&
       decide (M ≤ 12) && decide (1 ≤ D) && decide (D ≤ daysInMonth Y M))

/-! ## Helper lemmas -/

/-- The `do`-bind of a successful `Except` computation. -/
theorem exceptOkBind {ε α β : Type} (a : α) (f : α → Except ε β) :
    (Except.ok a : Except ε α) >>= f = f a := rfl

/-- A successful `extract_byclass` is either an exact-case table hit or a
title-cased table hit. -/
theorem extract_byclass_cases {c : String} {r : String × ℚ × ℚ × ℚ × ℚ}
    (hok : extract_byclass c = Except.ok r) :
    (c ∈ snow_classes ∧ r = class_row (snow_classes.indexOf c)) ∨
    (c ∉ snow_classes ∧ pyTitle c ∈ snow_classes ∧
      r = class_row (snow_classes.indexOf (pyTitle c))) := by
  unfold extract_byclass at hok
  by_cases h1 : c ∈ snow_classes
  · rw [if_pos h1] at hok
    exact Or.inl ⟨h1, by injection hok with h; exact h.symm⟩
  · rw [if_neg h1] at hok
    by_cases h2 : pyTitle c ∈ snow_classes
    · rw [if_pos h2] at hok
      exact Or.inr ⟨h1, h2, by injection hok with h; exact h.symm⟩
    · rw [if_neg h2] at hok
      exact absurd hok (by simp)

/-- Every table row of index below five has nonnegative densification rates
and an initial density between zero and the maximal density. -/
theorem class_row_params {idx : ℕ} (h : idx < 5) :
    0 ≤ (class_row idx).2.2.2.1 ∧ 0 ≤ (class_row idx).2.2.2.2 ∧
    (class_row idx).2.2.1 ≤ (class_row idx).2.1 ∧ 0 ≤ (class_row idx).2.2.1 := by
  interval_cases idx <;>
    norm_num [class_row, snow_classes, rho_maxes, rho_inits, k1s, k2s]

/-- A member of a list sits at its own index. -/
theorem getD_indexOf_self {l : List String} {c : String} (h : c ∈ l) (d : String) :
    l.getD (l.indexOf c) d = c := by
  have hlt : l.indexOf c < l.length := List.indexOf_lt_length.mpr h
  rw [List.getD_eq_getElem l d hlt]
  exact List.getElem_indexOf hlt

/-- The parameters of any successful class lookup satisfy
`0 ≤ k1`, `0 ≤ k2` and `rho_init ≤ rho_max`. -/
theorem extract_byclass_params {c n : String} {rm ri k1 k2 : ℚ}
    (hok : extract_byclass c = Except.ok (n, rm, ri, k1, k2)) :
    0 ≤ k1 ∧ 0 ≤ k2 ∧ ri ≤ rm := by
  have key : ∀ idx : ℕ, idx < 5 →
      (n, rm, ri, k1, k2) = class_row idx → 0 ≤ k1 ∧ 0 ≤ k2 ∧ ri ≤ rm := by
    intro idx hlt hr
    have hk1 : k1 = (class_row idx).2.2.2.1 := congrArg (fun t => t.2.2.2.1) hr
    have hk2 : k2 = (class_row idx).2.2.2.2 := congrArg (fun t => t.2.2.2.2) hr
    have hri : ri = (class_row idx).2.2.1 := congrArg (fun t => t.2.2.1) hr
    have hrm : rm = (class_row idx).2.1 := congrArg (fun t => t.2.1) hr
    obtain ⟨p1, p2, p3, _⟩ := class_row_params hlt
    rw [hk1, hk2, hri, hrm]
    exact ⟨p1, p2, p3⟩
  rcases extract_byclass_cases hok with ⟨h1, hr⟩ | ⟨_, h2, hr⟩
  · exact key _ (by simpa [snow_classes] using List.indexOf_lt_length.mpr h1) hr
  · exact key _ (by simpa [snow_classes] using List.indexOf_lt_length.mpr h2) hr

/-- Bounds and monotonicity of the raw Sturm bulk density expression, for
nonnegative rates, ordered densities and nonnegative arguments. -/
theorem rho_b_model_bounds_mono (rm ri k1 k2 x y x2 y2 : ℝ)
    (hri : ri ≤ rm) (hk1 : 0 ≤ k1) (hk2 : 0 ≤ k2)
    (hx : 0 ≤ x) (hy : 0 ≤ y) (hx2 : x ≤ x2) (hy2 : y ≤ y2) :
    (ri ≤ rho_b_model rm ri k1 k2 x y ∧ rho_b_model rm ri k1 k2 x y ≤ rm) ∧
    rho_b_model rm ri k1 k2 x y ≤ rho_b_model rm ri k1 k2 x2 y2 := by
  have hE1 : Real.exp (-k1 * x - k2 * y) ≤ 1 := by
    apply Real.exp_le_one_iff.mpr
    nlinarith
  have hE0 : 0 < Real.exp (-k1 * x - k2 * y) := Real.exp_pos _
  have hmono : Real.exp (-k1 * x2 - k2 * y2) ≤ Real.exp (-k1 * x - k2 * y) := by
    apply Real.exp_le_exp.mpr
    nlinarith
  have hE20 : 0 < Real.exp (-k1 * x2 - k2 * y2) := Real.exp_pos _
  unfold rho_b_model
  refine ⟨⟨by nlinarith, by nlinarith⟩, by nlinarith⟩

/-! ## Claim theorems -/

/-- C4: in the Hill blended model the two seasonal weights
`(1 - tanh(0.01*(DOWY-180)))/2` and `(1 + tanh(0.01*(DOWY-180)))/2` sum to
exactly 1 for every DOWY, and at `DOWY = 180` both weights equal `0.5`. -/
theorem hill_weights_sum (DOWY : ℝ) :
    earlyWeight DOWY + lateWeight DOWY = 1 ∧
    earlyWeight 180 = 1 / 2 ∧ lateWeight 180 = 1 / 2 := by
  refine ⟨?_, ?_, ?_⟩
  · unfold earlyWeight lateWeight
    ring
  · simp [earlyWeight, Real.tanh_zero]
  · simp [lateWeight, Real.tanh_zero]

/-- C3: for any depth `h` (metres), accepted snow class and day of year,
`sturm_swecalc` converts the depth with `h_cm = h * 10` (times 10, not 100),
forms `rho_b = (rho_max - rho_init) * (1 - exp(-k1*h_cm - k2*DOY)) + rho_init`
from the resolved class parameters, and returns `swe = rho_b * h * 1000`
millimetres. -/
theorem sturm_swecalc_formula (h : ℝ) (c n : String) (rm ri k1 k2 : ℚ) (DOY : ℤ)
    (hok : extract_byclass c = Except.ok (n, rm, ri, k1, k2)) :
    sturm_swecalc h c (some DOY) ("") =
      Except.ok ((((rm : ℝ) - (ri : ℝ)) *
        (1 - Real.exp (-(k1 : ℝ) * (h * 10) - (k2 : ℝ) * (DOY : ℝ))) + (ri : ℝ)) *
        h * 1000) := by
  unfold sturm_swecalc
  rw [hok]
  rfl

/-- Witness for C3 at class Alpine, `h = 1`, `DOY = 93`. -/
theorem sturm_swecalc_formula_witness :
    sturm_swecalc 1 ("Alpine") (some 93) ("") =
      Except.ok (((((0.5975 : ℚ) : ℝ) - ((0.2237 : ℚ) : ℝ)) *
        (1 - Real.exp (-((0.0012 : ℚ) : ℝ) * (1 * 10) -
          ((0.0038 : ℚ) : ℝ) * ((93 : ℤ) : ℝ))) + ((0.2237 : ℚ) : ℝ)) * 1 * 1000) :=
  sturm_swecalc_formula 1 ("Alpine") ("Alpine") 0.5975 0.2237 0.0012 0.0038 93 (by rfl)

/-- C9: with the overwrite flag off, `write_out_rio` leaves an existing
target untouched, and writes the grid when the target does not yet exist. -/
theorem write_out_rio_no_clobber (fs : FileSys) (arr : ℝ) (fn : String) :
    (fileExists fs fn = true → write_out_rio fs arr fn false false = fs) ∧
    (fileExists fs fn = false →
      fsLookup (write_out_rio fs arr fn false false) fn = some arr) := by
  constructor
  · intro hex
    simp [write_out_rio, hex]
  · intro hnex
    simp [write_out_rio, hnex, fsWrite, fsLookup]

/-- Witness for C9: an existing file survives; a fresh path receives the value. -/
theorem write_out_rio_no_clobber_witness :
    (write_out_rio [(("a.tif"), (0 : ℝ))] 1 ("a.tif") false false =
      [(("a.tif"), (0 : ℝ))]) ∧
    fsLookup (write_out_rio ([] : FileSys) 1 ("b.tif") false false) ("b.tif") =
      some 1 :=
  ⟨(write_out_rio_no_clobber [(("a.tif"), (0 : ℝ))] 1 ("a.tif")).1 (by rfl),
   (write_out_rio_no_clobber ([] : FileSys) 1 ("b.tif")).2 (by rfl)⟩

/-- C7: `extract_byclass` succeeds on an exact-case hit first, otherwise on a
title-cased hit, and errors exactly when neither the input nor its
title-cased form is one of the five class names. -/
theorem extract_byclass_match_rule (c : String) :
    ((∃ e, extract_byclass c = Except.error e) ↔
      (c ∉ snow_classes ∧ pyTitle c ∉ snow_classes)) ∧
    (c ∈ snow_classes →
      extract_byclass c = Except.ok (class_row (snow_classes.indexOf c))) ∧
    (c ∉ snow_classes → pyTitle c ∈ snow_classes →
      extract_byclass c = Except.ok (class_row (snow_classes.indexOf (pyTitle c)))) := by
  unfold extract_byclass
  by_cases h1 : c ∈ snow_classes
  · simp [h1]
  · by_cases h2 : pyTitle c ∈ snow_classes
    · simp [h1, h2]
    · simp [h1, h2]

/-- Witness for C7: `"ALPINE"` misses the exact-case table but hits it after
title-casing. -/
theorem extract_byclass_match_rule_witness :
    extract_byclass ("ALPINE") =
      Except.ok (class_row (snow_classes.indexOf (pyTitle ("ALPINE")))) :=
  (extract_byclass_match_rule ("ALPINE")).2.2 (by decide) (by decide)

/-- C10: any accepted input resolves to a canonical class name — the input
itself or its title-cased form, always one of the five table entries — and
the returned parameters are exactly the table row of that canonical name. -/
theorem extract_byclass_canonical (c n : String) (rm ri k1 k2 : ℚ)
    (hok : extract_byclass c = Except.ok (n, rm, ri, k1, k2)) :
    n ∈ snow_classes ∧ (n = c ∨ n = pyTitle c) ∧
      (n, rm, ri, k1, k2) = class_row (snow_classes.indexOf n) := by
  rcases extract_byclass_cases hok with ⟨h1, hr⟩ | ⟨_, h2, hr⟩
  · have hn : n = c := by
      have hfst := congrArg (fun t => t.1) hr
      simpa [class_row, List.getElem?_indexOf h1] using hfst
    subst hn
    exact ⟨h1, Or.inl rfl, hr⟩
  · have hn : n = pyTitle c := by
      have hfst := congrArg (fun t => t.1) hr
      simpa [class_row, List.getElem?_indexOf h2] using hfst
    subst hn
    exact ⟨h2, Or.inr rfl, hr⟩

/-- Witness for C10 at the lower-case input `"alpine"`. -/
theorem extract_byclass_canonical_witness :
    ("Alpine") ∈ snow_classes ∧
    (("Alpine") = ("alpine") ∨ ("Alpine") = pyTitle ("alpine")) ∧
    ((("Alpine"), (0.5975 : ℚ), (0.2237 : ℚ), (0.0012 : ℚ), (0.0038 : ℚ)) =
      class_row (snow_classes.indexOf ("Alpine"))) :=
  extract_byclass_canonical ("alpine") ("Alpine") 0.5975 0.2237 0.0012 0.0038 (by rfl)

/-- C8: for every accepted snow class, the Sturm bulk density lies between
`rho_init` and `rho_max` whenever `h ≥ 0` and `DOY ≥ 0`, and it is
monotonically non-decreasing in the depth and in the day of year. -/
theorem sturm_rho_b_bounds (c n : String) (rm ri k1 k2 : ℚ) (h DOY h2 DOY2 : ℝ)
    (hok : extract_byclass c = Except.ok (n, rm, ri, k1, k2))
    (hh : 0 ≤ h) (hd : 0 ≤ DOY) (hh2 : h ≤ h2) (hd2 : DOY ≤ DOY2) :
    ((ri : ℝ) ≤ rho_b_model (rm : ℝ) (ri : ℝ) (k1 : ℝ) (k2 : ℝ) (h * 10) DOY ∧
      rho_b_model (rm : ℝ) (ri : ℝ) (k1 : ℝ) (k2 : ℝ) (h * 10) DOY ≤ (rm : ℝ)) ∧
    rho_b_model (rm : ℝ) (ri : ℝ) (k1 : ℝ) (k2 : ℝ) (h * 10) DOY ≤
      rho_b_model (rm : ℝ) (ri : ℝ) (k1 : ℝ) (k2 : ℝ) (h2 * 10) DOY2 := by
  obtain ⟨p1, p2, p3⟩ := extract_byclass_params hok
  apply rho_b_model_bounds_mono
  · exact_mod_cast p3
  · exact_mod_cast p1
  · exact_mod_cast p2
  · nlinarith
  · exact hd
  · nlinarith
  · exact hd2

/-- Witness for C8 at class Alpine, `h, DOY` from `(0, 0)` up to `(1, 1)`. -/
theorem sturm_rho_b_bounds_witness :
    ((((0.2237 : ℚ) : ℝ) ≤ rho_b_model ((0.5975 : ℚ) : ℝ) ((0.2237 : ℚ) : ℝ)
        ((0.0012 : ℚ) : ℝ) ((0.0038 : ℚ) : ℝ) (0 * 10) 0 ∧
      rho_b_model ((0.5975 : ℚ) : ℝ) ((0.2237 : ℚ) : ℝ) ((0.0012 : ℚ) : ℝ)
        ((0.0038 : ℚ) : ℝ) (0 * 10) 0 ≤ ((0.5975 : ℚ) : ℝ)) ∧
    rho_b_model ((0.5975 : ℚ) : ℝ) ((0.2237 : ℚ) : ℝ) ((0.0012 : ℚ) : ℝ)
        ((0.0038 : ℚ) : ℝ) (0 * 10) 0 ≤
      rho_b_model ((0.5975 : ℚ) : ℝ) ((0.2237 : ℚ) : ℝ) ((0.0012 : ℚ) : ℝ)
        ((0.0038 : ℚ) : ℝ) (1 * 10) 1) :=
  sturm_rho_b_bounds ("Alpine") ("Alpine") 0.5975 0.2237 0.0012 0.0038 0 0 1 1
    (by rfl) le_rfl le_rfl zero_le_one zero_le_one

/-- C1: evaluation of `calc_dowy` at the start of water year 2021 and at the
Feb 28 / Mar 1 boundary of 2021.  October 1 maps to `DOWY = 2`, not 1 (the
`&`/`==` precedence slip makes the leap increment fire for every Oct-Dec
date), and the two consecutive dates Feb 28 and Mar 1 2021 collide at 152,
so the map is not the claimed bijection with `Oct 1 -> 1`. -/
theorem calc_dowy_water_year_eval :
    calc_dowy ("20201001") = Except.ok 2 ∧
    calc_dowy ("20210228") = Except.ok 152 ∧
    calc_dowy ("20210301") = Except.ok 152 := by
  exact ⟨rfl, rfl, rfl⟩

/-- C2: evaluation of `get_doy` at Jan 1 2021 and Mar 1 2022.  The claim's
rule gives 1 and 60 (no increment: 2021 and 2022 are not divisible by 4,
and Jan 1 is not after Feb 28); the code returns 2 and 61 because its
increment condition is `((A & B) & (Y%4)) == 0`. -/
theorem get_doy_increment_eval :
    get_doy ("20210101") true = Except.ok 2 ∧
    get_doy ("20220301") true = Except.ok 61 := by
  exact ⟨rfl, rfl⟩

/-- C6 counterexample: the six-character digit string `"202011"` is not an
eight-digit date, yet both date functions accept it (it decomposes as
`Y=2020, M=11, D=11` through the `f[-2:]` slice), refuting the claim that
every string other than a valid eight-digit date fails. -/
theorem date_parse_six_digit_counterexample :
    get_doy ("202011") true = Except.ok 316 ∧
    calc_dowy ("202011") = Except.ok 43 ∧
    ("202011").length = 6 := by
  exact ⟨rfl, rfl, rfl⟩

/-- `pyInt` accepts every non-empty all-digit string and returns its value. -/
theorem pyInt_digits {l : List Char} (hne : l ≠ []) (hd : l.all Char.isDigit = true) :
    pyInt l = some ((digitsToNat l : ℕ) : ℤ) := by
  cases l with
  | nil => exact absurd rfl hne
  | cons c cs =>
    have hc : c.isDigit = true := List.all_eq_true.mp hd c (List.mem_cons_self c cs)
    have hcm : ¬(c = '-') := by
      intro h
      rw [h] at hc
      exact absurd hc (by decide)
    have hcp : ¬(c = '+') := by
      intro h
      rw [h] at hc
      exact absurd hc (by decide)
    simp only [pyInt]
    rw [if_neg hcm, if_neg hcp]
    unfold digitsVal
    rw [if_pos ⟨List.cons_ne_nil c cs, hd⟩]
    rfl

/-- A conditional between two successes is a success. -/
theorem existsOkIte {c : Prop} [Decidable c] (a b : ℤ) :
    ∃ v, (if c then Except.ok a else (Except.ok b : Except String ℤ)) =
      Except.ok v := by
  by_cases h : c
  · exact ⟨a, if_pos h⟩
  · exact ⟨b, if_neg h⟩

/-- A successfully parsed date makes `get_doy` succeed. -/
theorem get_doy_ok_of_parse {f : String} {t : ℕ × ℕ × ℕ}
    (hp : parse_date f = some t) : ∃ v, get_doy f true = Except.ok v := by
  obtain ⟨Y, M, D⟩ := t
  unfold get_doy
  rw [hp]
  dsimp only
  exact existsOkIte _ _

/-- A successfully parsed date makes `calc_dowy` succeed. -/
theorem calc_dowy_ok_of_parse {f : String} {t : ℕ × ℕ × ℕ}
    (hp : parse_date f = some t) : ∃ w, calc_dowy f = Except.ok w := by
  obtain ⟨Y, M, D⟩ := t
  unfold calc_dowy
  rw [hp]
  dsimp only
  exact existsOkIte _ _


/-- An eight-digit valid date string parses to its three digit fields. -/
theorem parse_date_of_valid8 (f : String) (hf : isEightDigitValidDate f = true) :
    parse_date f = some (digitsToNat (f.toList.take 4),
      digitsToNat ((f.toList.drop 4).take 2), digitsToNat (f.toList.drop 6)) := by
  unfold isEightDigitValidDate at hf
  simp only [Bool.and_eq_true, beq_iff_eq, decide_eq_true_eq] at hf
  obtain ⟨⟨hlen, hdig⟩, ⟨⟨⟨⟨hY1, hY2⟩, hM1⟩, hM2⟩, hD1⟩, hD2⟩ := hf
  have hsub : ∀ (s : List Char), s ⊆ f.toList → s.all Char.isDigit = true := by
    intro s hs
    apply List.all_eq_true.mpr
    intro x hx
    exact List.all_eq_true.mp hdig x (hs hx)
  have ht4 : (f.toList.take 4).all Char.isDigit = true :=
    hsub _ (List.take_subset 4 f.toList)
  have ht46 : ((f.toList.drop 4).take 2).all Char.isDigit = true :=
    hsub _ ((List.take_subset 2 (f.toList.drop 4)).trans (List.drop_subset 4 f.toList))
  have ht6 : (f.toList.drop 6).all Char.isDigit = true :=
    hsub _ (List.drop_subset 6 f.toList)
  have hlen4 : (f.toList.take 4).length = 4 := by
    rw [List.length_take, hlen]
    rfl
  have hlen46 : ((f.toList.drop 4).take 2).length = 2 := by
    rw [List.length_take, List.length_drop, hlen]
    rfl
  have hlen6 : (f.toList.drop 6).length = 2 := by
    rw [List.length_drop, hlen]
  have hne4 : f.toList.take 4 ≠ [] := by
    intro h
    rw [h] at hlen4
    simp at hlen4
  have hne46 : (f.toList.drop 4).take 2 ≠ [] := by
    intro h
    rw [h] at hlen46
    simp at hlen46
  have hne6 : f.toList.drop 6 ≠ [] := by
    intro h
    rw [h] at hlen6
    simp at hlen6
  have h4 : pySlice f.toList 0 4 = f.toList.take 4 := rfl
  have h46 : pySlice f.toList 4 6 = (f.toList.drop 4).take 2 := by
    rw [List.take_drop]
    rfl
  have hlast : pyLastTwo f.toList = f.toList.drop 6 := by
    unfold pyLastTwo
    rw [hlen]
  unfold parse_date
  dsimp only
  rw [h4, h46, hlast, pyInt_digits hne4 ht4, pyInt_digits hne46 ht46,
    pyInt_digits hne6 ht6]
  dsimp only
  rw [if_pos]
  · simp [Int.toNat_natCast]
  · refine ⟨by exact_mod_cast hY1, by exact_mod_cast hY2, by exact_mod_cast hM1,
      by exact_mod_cast hM2, by exact_mod_cast hD1, ?_⟩
    rw [Int.toNat_natCast, Int.toNat_natCast]
    exact_mod_cast hD2

/-- C6 (amended): every string of exactly eight digits that decomposes into a
valid calendar date is accepted by both `get_doy` and `calc_dowy`; failure is
governed by the actual slices `f[:4]`, `f[4:6]`, `f[-2:]`, which also admit
some shorter digit strings, so acceptance is not limited to eight-digit
inputs. -/
theorem valid_eight_digit_dates_parse (f : String)
    (hf : isEightDigitValidDate f = true) :
    (∃ v, get_doy f true = Except.ok v) ∧ (∃ w, calc_dowy f = Except.ok w) :=
  ⟨get_doy_ok_of_parse (parse_date_of_valid8 f hf),
   calc_dowy_ok_of_parse (parse_date_of_valid8 f hf)⟩

/-- Witness for C6 at the valid date string `"20200101"`. -/
theorem valid_eight_digit_dates_parse_witness :
    isEightDigitValidDate ("20200101") = true ∧
    ((∃ v, get_doy ("20200101") true = Except.ok v) ∧
      (∃ w, calc_dowy ("20200101") = Except.ok w)) :=
  ⟨rfl, valid_eight_digit_dates_parse ("20200101") rfl⟩

/-- C5 counterexample: at a concrete depth grid and date, the non-dry-run
orchestrator returns four filenames but only three SWE grids — the claimed
"set of four SWE grids" is never returned. -/
theorem swe_models_three_grids_counterexample :
    (swe_models [] 1 ("20200101") ("d/ASO_sd.tif") 1 1 1 1 (3/10) ("Alpine") none
        false false false).toOption.map
      (fun r => (r.1.1.length, r.1.2.map List.length)) = some (4, some 3) := by
  rfl

/-- C5 (amended): whenever the date and snow class are accepted, `swe_models`
assembles the four named output filenames (bulk, Sturm, Hill paper, Hill
grid); under `dry_run` it returns only those identifiers, evaluating no model
and leaving the file system unchanged; otherwise it evaluates all four models
— including the paper-variant Hill grid, whose value is stated below — but
returns, besides the four filenames, exactly the three grids
`[bulk, sturm, hill_grid]` in that fixed order, omitting the Hill paper grid
from the returned list. -/
theorem swe_models_structure (fs : FileSys) (h td1 p1 td2 p2 : ℝ)
    (YMD sd_fn : String) (bd : ℚ) (sc : String) (wo ow : Bool) (dowy doy : ℤ)
    (n : String) (rm ri k1 k2 : ℚ)
    (h1 : calc_dowy YMD = Except.ok dowy)
    (h2 : get_doy YMD true = Except.ok doy)
    (h3 : extract_byclass sc = Except.ok (n, rm, ri, k1, k2)) :
    (swe_models fs h YMD sd_fn td1 p1 td2 p2 bd sc none wo ow true =
      Except.ok ((swe_filenames sd_fn bd none, none), fs)) ∧
    (swe_filenames sd_fn bd none).length = 4 ∧
    (calc_swe (get_snowdepth h true) td1 p1 YMD =
      Except.ok (hill_formula hill_a hill_b (get_snowdepth h true) p1 td1 (dowy : ℝ),
        get_snowdepth h true, dowy)) ∧
    (∃ fs2, swe_models fs h YMD sd_fn td1 p1 td2 p2 bd sc none wo ow false =
      Except.ok ((swe_filenames sd_fn bd none,
        some [bulkdensity_swecalc h (bd : ℝ) * 1000,
          rho_b_model (rm : ℝ) (ri : ℝ) (k1 : ℝ) (k2 : ℝ) (h * 10) (doy : ℝ) * h * 1000,
          hill_formula hill_a hill_b (get_snowdepth h true) p2 td2 (dowy : ℝ)]), fs2)) := by
  have hsturm : sturm_swecalc h sc none YMD =
      Except.ok (rho_b_model (rm : ℝ) (ri : ℝ) (k1 : ℝ) (k2 : ℝ) (h * 10) (doy : ℝ) *
        h * 1000) := by
    unfold sturm_swecalc
    dsimp only
    rw [h2, exceptOkBind, h3, exceptOkBind]
  have hcalc1 : calc_swe (get_snowdepth h true) td1 p1 YMD =
      Except.ok (hill_formula hill_a hill_b (get_snowdepth h true) p1 td1 (dowy : ℝ),
        get_snowdepth h true, dowy) := by
    unfold calc_swe
    rw [h1, exceptOkBind]
  have hcalc2 : calc_swe (get_snowdepth h true) td2 p2 YMD =
      Except.ok (hill_formula hill_a hill_b (get_snowdepth h true) p2 td2 (dowy : ℝ),
        get_snowdepth h true, dowy) := by
    unfold calc_swe
    rw [h1, exceptOkBind]
  refine ⟨rfl, rfl, hcalc1, ?_⟩
  exact ⟨_, by
    unfold swe_models
    dsimp only
    rw [hsturm, exceptOkBind, hcalc1, exceptOkBind, hcalc2, exceptOkBind]
    rfl⟩

/-- Witness for C5 at date `"20200101"`, class Alpine, `writeout` off. -/
theorem swe_models_structure_witness :
    (swe_models [] 1 ("20200101") ("d/ASO_sd.tif") 1 1 1 1 (3/10) ("Alpine") none
        false false true =
      Except.ok ((swe_filenames ("d/ASO_sd.tif") (3/10) none, none), [])) ∧
    (swe_filenames ("d/ASO_sd.tif") (3/10) none).length = 4 ∧
    (calc_swe (get_snowdepth 1 true) 1 1 ("20200101") =
      Except.ok (hill_formula hill_a hill_b (get_snowdepth 1 true) 1 1 ((93 : ℤ) : ℝ),
        get_snowdepth 1 true, 93)) ∧
    (∃ fs2, swe_models [] 1 ("20200101") ("d/ASO_sd.tif") 1 1 1 1 (3/10) ("Alpine")
        none false false false =
      Except.ok ((swe_filenames ("d/ASO_sd.tif") (3/10) none,
        some [bulkdensity_swecalc 1 ((3/10 : ℚ) : ℝ) * 1000,
          rho_b_model ((0.5975 : ℚ) : ℝ) ((0.2237 : ℚ) : ℝ) ((0.0012 : ℚ) : ℝ)
            ((0.0038 : ℚ) : ℝ) (1 * 10) ((1 : ℤ) : ℝ) * 1 * 1000,
          hill_formula hill_a hill_b (get_snowdepth 1 true) 1 1 ((93 : ℤ) : ℝ)]),
        fs2)) :=
  swe_models_structure [] 1 1 1 1 1 ("20200101") ("d/ASO_sd.tif") (3/10) ("Alpine")
    false false 93 1 ("Alpine") 0.5975 0.2237 0.0012 0.0038 rfl rfl rfl
